import Mathlib

/-!
# Verification of the neuro-occ compliance-constrained proposal selection engine

Shallow embedding of the DGCA FDTL rule validator
(`src/dgca_rules/validator.py`), the proposal validate-and-filter selection
step (`src/llm/system_2_agent.py`), the action-text duration heuristic
(`src/brain_api.py::_validate_with_fdtl`, identical in
`System2Agent._reason_with_openai`), and the randomized cost estimator of the
local LLM path (`src/llm/local_llm.py::_estimate_cost`).

Numeric values (hours, caps, costs) are modelled as rationals `ℚ`; the Python
code computes with floats but no claim depends on floating-point rounding.
Python dictionaries with possibly-missing keys are modelled as structures with
`Option` fields; `dict.get(k, 0)` becomes `Option.getD 0`, and a bare
`dict[k]` access that can raise `KeyError` is modelled in the `Except` monad.
-/

/-- The distinct human-readable reason strings produced by the program.
Each constructor records one Python format string together with the values
interpolated into it:
* `exceedsDaily cap` — `"Exceeds max daily flight time of {cap} hours."`
* `nightRest nights rest` — `"Rule violation: {nights} consecutive night
  duties require {rest}h rest."`
* `exceedsWeekly limit` — `"Exceeds {limit}-hour weekly flight limit."`
* `compliant` — `"Compliant"`
* `basicDelayWithinLimits` — `"Basic delay within DGCA limits"` (hardcoded in
  `System2Agent._fallback_proposals`)
* `aircraftSwapWithinLimits` — `"Aircraft swap within operational limits"`
  (hardcoded in `System2Agent._fallback_proposals`) -/
inductive Reason where
  | exceedsDaily (cap : ℚ)
  | nightRest (nights : ℚ) (rest : ℚ)
  | exceedsWeekly (limit : ℚ)
  | compliant
  | basicDelayWithinLimits
  | aircraftSwapWithinLimits
deriving DecidableEq, Repr

/-- A fully-populated rule set: the four numeric limits the validator reads
from the `dgca_fdtl` section of `config.yaml` (key names as in the source). -/
structure Rules where
  max_daily_flight_time : ℚ
  max_consecutive_night_duties : ℚ
  mandatory_night_rest_hours : ℚ
  weekly_flight_time_limit : ℚ
deriving DecidableEq, Repr

/-- The `dgca_fdtl` section as actually loaded: a dictionary in which any of
the four limit keys may be missing (`FDTLValidator.__init__` never checks
them individually). -/
structure RulesDict where
  max_daily_flight_time : Option ℚ
  max_consecutive_night_duties : Option ℚ
  mandatory_night_rest_hours : Option ℚ
  weekly_flight_time_limit : Option ℚ
deriving DecidableEq, Repr

/-- View a complete rule set as a rules dictionary with every key present. -/
def Rules.toDict (r : Rules) : RulesDict :=
  ⟨some r.max_daily_flight_time, some r.max_consecutive_night_duties,
   some r.mandatory_night_rest_hours, some r.weekly_flight_time_limit⟩

/-- The `pilot_data` dictionary: each duty field may be absent, and
`validate_assignment` reads every field with `pilot_data.get(key, 0)`. -/
structure PilotDict where
  daily_flight_hours : Option ℚ
  consecutive_night_duties : Option ℚ
  hours_since_last_rest : Option ℚ
  weekly_flight_hours : Option ℚ
deriving DecidableEq, Repr

/-- The `proposed_flight` dictionary; the validator only ever reads
`proposed_flight.get('duration_hours', 0)` (the `action` key it is sometimes
given is never read by the validator). -/
structure FlightDict where
  duration_hours : Option ℚ
deriving DecidableEq, Repr

/-- `FDTLValidator.validate_assignment` (src/dgca_rules/validator.py, lines
25–56) for a fully-populated rule set: check the daily flight-time cap, then
the night-duty rest rule, then the weekly cap, returning the first violation,
else `(True, "Compliant")`.  Missing pilot/flight fields default to 0 exactly
as `dict.get(key, 0)` does. -/
def validate_assignment (rules : Rules) (pilot_data : PilotDict)
    (proposed_flight : FlightDict) : Bool × Reason :=
  let proposed_hours := proposed_flight.duration_hours.getD 0
  let current_daily_hours := pilot_data.daily_flight_hours.getD 0
  if current_daily_hours + proposed_hours > rules.max_daily_flight_time then
    (false, .exceedsDaily rules.max_daily_flight_time)
  else
    let consecutive_nights := pilot_data.consecutive_night_duties.getD 0
    let last_rest_hours := pilot_data.hours_since_last_rest.getD 0
    if consecutive_nights ≥ rules.max_consecutive_night_duties ∧
        last_rest_hours < rules.mandatory_night_rest_hours then
      (false, .nightRest consecutive_nights rules.mandatory_night_rest_hours)
    else
      let weekly_hours := pilot_data.weekly_flight_hours.getD 0
      if weekly_hours + proposed_hours > rules.weekly_flight_time_limit then
        (false, .exceedsWeekly rules.weekly_flight_time_limit)
      else
        (true, .compliant)

/-- Identifies which rule key a `KeyError` escaped on. -/
inductive RuleKey where
  | maxDailyFlightTime
  | maxConsecutiveNightDuties
  | mandatoryNightRestHours
  | weeklyFlightTimeLimit
deriving DecidableEq, Repr

/-- `FDTLValidator.validate_assignment` run against a possibly-incomplete
rules dictionary: each `self.rules[key]` access raises `KeyError` (modelled
as `Except.error`) when the key is missing, and the accesses happen in the
evaluation order of the source — `max_daily_flight_time` first,
`max_consecutive_night_duties` after the daily check passes,
`mandatory_night_rest_hours` only once the consecutive-nights test is true,
and `weekly_flight_time_limit` only when the earlier checks all pass. -/
def validate_assignment_dict (rules : RulesDict) (pilot_data : PilotDict)
    (proposed_flight : FlightDict) : Except RuleKey (Bool × Reason) :=
  let proposed_hours := proposed_flight.duration_hours.getD 0
  let current_daily_hours := pilot_data.daily_flight_hours.getD 0
  match rules.max_daily_flight_time with
  | none => .error .maxDailyFlightTime
  | some maxDaily =>
    if current_daily_hours + proposed_hours > maxDaily then
      .ok (false, .exceedsDaily maxDaily)
    else
      let consecutive_nights := pilot_data.consecutive_night_duties.getD 0
      let last_rest_hours := pilot_data.hours_since_last_rest.getD 0
      let weeklyCheck : Except RuleKey (Bool × Reason) :=
        match rules.weekly_flight_time_limit with
        | none => .error .weeklyFlightTimeLimit
        | some weeklyLimit =>
          let weekly_hours := pilot_data.weekly_flight_hours.getD 0
          if weekly_hours + proposed_hours > weeklyLimit then
            .ok (false, .exceedsWeekly weeklyLimit)
          else
            .ok (true, .compliant)
      match rules.max_consecutive_night_duties with
      | none => .error .maxConsecutiveNightDuties
      | some maxNights =>
        if consecutive_nights ≥ maxNights then
          match rules.mandatory_night_rest_hours with
          | none => .error .mandatoryNightRestHours
          | some mandatoryRest =>
            if last_rest_hours < mandatoryRest then
              .ok (false, .nightRest consecutive_nights mandatoryRest)
            else
              weeklyCheck
        else
          weeklyCheck

/-- `FDTLValidator.__init__` after the YAML file has been read and parsed:
`config['dgca_fdtl']` raises `KeyError` ("Invalid config: missing
'dgca_fdtl' section") when the section is absent, and otherwise stores the
section as `self.rules` without checking any of the individual limit keys.
(`FileNotFoundError` for a missing file and `yaml.YAMLError` for unparseable
text are raised before this point and are outside the embedding; they also
abort construction.) -/
def FDTLValidator_init (config : Option RulesDict) : Except String RulesDict :=
  match config with
  | none => .error "Invalid config: missing 'dgca_fdtl' section"
  | some rules => .ok rules

/-- Running the dictionary-based validator on a complete rule set never
raises and agrees with the total validator. -/
theorem validate_assignment_dict_toDict (r : Rules) (p : PilotDict)
    (f : FlightDict) :
    validate_assignment_dict r.toDict p f = .ok (validate_assignment r p f) := by
  simp only [validate_assignment_dict, validate_assignment, Rules.toDict]
  split_ifs <;> simp_all

/-! ## String helpers modelling Python primitives -/

/-- `pat` occurs as a contiguous subsequence of `hay`: the meaning of
Python's `pat in hay` on strings, on character lists. -/
def listHasSub (pat : List Char) : List Char → Bool
  | [] => pat.isEmpty
  | c :: rest => pat.isPrefixOf (c :: rest) || listHasSub pat rest

/-- Python's substring test `pat in s`. -/
def strHasSub (s pat : String) : Bool :=
  listHasSub pat.data s.data

/-- Helper for `pyWords`: accumulate the current word (reversed) while
scanning. -/
def pyWordsAux (cur : List Char) : List Char → List (List Char)
  | [] => if cur.isEmpty then [] else [cur.reverse]
  | c :: rest =>
    if c.isWhitespace then
      if cur.isEmpty then pyWordsAux [] rest
      else cur.reverse :: pyWordsAux [] rest
    else
      pyWordsAux (c :: cur) rest

/-- Python's `s.split()` with no argument: split on runs of whitespace,
discarding empty pieces. -/
def pyWords (s : String) : List String :=
  (pyWordsAux [] s.data).map List.asString

/-- Numeric value of a digit list, most significant first. -/
def digitsVal (l : List Char) : ℕ :=
  l.foldl (fun a c => 10 * a + (c.toNat - 48)) 0

/-- Python's `float(s)` on plain decimal literals, returning `none` where
`float` raises `ValueError`: an optional sign followed by digits with at most
one decimal point, at least one digit in total (so `"3"`, `"2.5"`, `"1."`,
`".5"`, `"-4"` parse and `""`, `"."`, `"abc"`, `"1.2.3"` do not).
Exponents, `inf`/`nan`, underscores and surrounding whitespace — which the
source never feeds it from the action strings at issue — are not modelled. -/
def parseFloat? (s : String) : Option ℚ :=
  let body : List Char := s.data
  let (sgn, digitsPart) : ℚ × List Char :=
    match body with
    | '-' :: t => (-1, t)
    | '+' :: t => (1, t)
    | _ => (1, body)
  let intPart := digitsPart.takeWhile (· ≠ '.')
  let rest := digitsPart.dropWhile (· ≠ '.')
  if intPart.all (·.isDigit) then
    match rest with
    | [] =>
      if intPart.isEmpty then none
      else some (sgn * digitsVal intPart)
    | _ :: fracPart =>
      if fracPart.all (·.isDigit) ∧ ¬(intPart.isEmpty ∧ fracPart.isEmpty) then
        some (sgn * (digitsVal intPart + digitsVal fracPart / 10 ^ fracPart.length))
      else none
  else none

/-- Python's `s.lower()` on ASCII text: lowercase every character.
(The action strings at issue are ASCII; Unicode case folding is not
modelled.) -/
def strToLower (s : String) : String :=
  ⟨s.data.map Char.toLower⟩

/-- The word preceding the first word at index `i > 0` that contains
`"hour"`, mirroring the loop
`for i, word in enumerate(words): if "hour" in word and i > 0: ...`. -/
def findHourPred : List String → Option String
  | [] => none
  | [_] => none
  | w1 :: w2 :: rest =>
    if strHasSub w2 "hour" then some w1 else findHourPred (w2 :: rest)

/-- The duration-guessing heuristic of `_validate_with_fdtl`
(src/brain_api.py, lines 150–164), character-identical in
`System2Agent._reason_with_openai` (src/llm/system_2_agent.py, lines 87–100);
`action` is the already-lowercased action string.  If the action contains
`"delay"`, look for the first word (beyond the first) containing `"hour"`
and parse the preceding word with `float`; any parse failure is caught by the
surrounding `try`/`except` and leaves the default 2.0, as does the absence of
such a word.  Otherwise `"cancel"` gives 0.0, then `"swap"` gives 1.0, and
anything else the default 2.0. -/
def estimate_duration (action : String) : ℚ :=
  if strHasSub action "delay" then
    match findHourPred (pyWords action) with
    | none => 2
    | some w => (parseFloat? w).getD 2
  else if strHasSub action "cancel" then 0
  else if strHasSub action "swap" then 1
  else 2

/-! ## The proposal selection step (`System2Agent._reason_with_openai`) -/

/-- One proposal as drafted by the generator: the keys of the JSON objects
the selection loop reads (`action`, `cost`; the `reasoning` key is carried
through untouched and is omitted here). -/
structure Candidate where
  action : String
  cost : ℚ
deriving DecidableEq, Repr

/-- A candidate after the validation loop has attached the `compliant` and
`validation_reason` keys. -/
structure Proposal where
  action : String
  cost : ℚ
  compliant : Bool
  validation_reason : Reason
deriving DecidableEq, Repr

/-- One iteration of the validation loop in
`System2Agent._reason_with_openai` (src/llm/system_2_agent.py, lines 84–105):
lowercase the action, estimate a flight duration from its text, build the
`flight_data` dict, run the validator, and attach the verdict to the
proposal.  (`pilot_data` is the one dictionary shared by every candidate of
the call; the `action` key of `flight_data` is never read by the
validator.) -/
def annotate (rules : Rules) (pilot_data : PilotDict) (c : Candidate) :
    Proposal :=
  let action := strToLower c.action
  let duration_hours := estimate_duration action
  let flight_data : FlightDict := ⟨some duration_hours⟩
  let v := validate_assignment rules pilot_data flight_data
  ⟨c.action, c.cost, v.1, v.2⟩

/-- What `_reason_with_openai` returns after the validation loop:
the list `valid_options` when it is non-empty, and otherwise the value of
`self._reason_with_local_llm(...)` — the randomized local-LLM path, which is
also where an OpenAI failure lands. -/
inductive SelectResult where
  | options (valid_options : List Proposal)
  | fallbackLocal
deriving DecidableEq, Repr

/-- The deterministic tail of `System2Agent._reason_with_openai`
(src/llm/system_2_agent.py, lines 82–109): validate every proposal in order,
keep the compliant ones in `valid_options`, and return them if any survive,
else delegate to the local-LLM path. -/
def reason_with_openai (rules : Rules) (pilot_data : PilotDict)
    (proposals : List Candidate) : SelectResult :=
  let valid_options :=
    (proposals.map (annotate rules pilot_data)).filter (·.compliant)
  if valid_options.isEmpty then .fallbackLocal else .options valid_options

/-- `System2Agent._fallback_proposals` (src/llm/system_2_agent.py, lines
120–137): the two hardcoded proposals returned when the local-LLM path fails,
both marked `"compliant": True` without any call to the validator. -/
def fallback_proposals : List Proposal :=
  [⟨"Delay flight by 2 hours", 500, true, .basicDelayWithinLimits⟩,
   ⟨"Swap to backup aircraft", 1200, true, .aircraftSwapWithinLimits⟩]

/-! ## The randomized cost estimator of the local-LLM path -/

/-- Modelled from the Python standard library: `random.randint(lo, hi)`
returns a value in `[lo, hi]` determined by the hidden global RNG state,
abstracted here as the single draw `draw` consumed from that state. -/
def randint (lo hi : ℕ) (draw : ℕ) : ℕ :=
  lo + draw % (hi - lo + 1)

/-- `LocalLLM._estimate_cost` (src/llm/local_llm.py, lines 149–165): pick a
cost range by keyword in the action text and draw a uniform cost from the
hidden global RNG (`self.cost_ranges`, lines 55–63). -/
def estimate_cost (action : String) (draw : ℕ) : ℕ :=
  let action_lower := strToLower action
  if strHasSub action_lower "delay" then randint 300 800 draw
  else if strHasSub action_lower "cancel" then randint 2000 5000 draw
  else if strHasSub action_lower "divert" then randint 800 1500 draw
  else if strHasSub action_lower "ground" then randint 400 900 draw
  else if strHasSub action_lower "swap" then randint 600 1200 draw
  else if strHasSub action_lower "reassign" then randint 200 600 draw
  else randint 100 400 draw

/-- The selection step of `_reason_with_openai` as an input/output relation;
`SelectStep r p cands o` holds when the loop run on candidate list `cands`
can produce outcome `o`. -/
inductive SelectStep (rules : Rules) (pilot_data : PilotDict)
    (cands : List Candidate) : SelectResult → Prop where
  | options (l : List Proposal)
      (hl : l = (cands.map (annotate rules pilot_data)).filter (·.compliant))
      (hne : l ≠ []) : SelectStep rules pilot_data cands (.options l)
  | fallback
      (h : (cands.map (annotate rules pilot_data)).filter (·.compliant) = []) :
      SelectStep rules pilot_data cands .fallbackLocal

/-! ## Shared concrete data for witnesses and counterexamples -/

/-- The rule values of the repository's test configuration
(src/tests/test_dgca_rules.py): daily cap 8, at most 2 consecutive night
duties, 56 h mandatory rest, weekly cap 35. -/
def specRules : Rules := ⟨8, 2, 56, 35⟩

/-- A well-rested pilot dictionary with every field present. -/
def pilot0 : PilotDict := ⟨some 0, some 0, some 60, some 0⟩

/-! ## Claims about the validator -/

/-- C2: with every duty field present, the validator returns non-compliant
with the reason citing the daily cap exactly when
`daily_flight_hours + duration_hours` strictly exceeds the daily cap, and
returns non-compliant citing the weekly cap exactly when
`weekly_flight_hours + duration_hours` strictly exceeds the weekly cap and
no earlier check (daily cap, night rest) has already fired; in particular a
flight whose sum exactly reaches a cap passes that check (strict
greater-than on both caps). -/
theorem C2_cap_checks (r : Rules) (dh cn rest wh dur : ℚ) :
    (validate_assignment r ⟨some dh, some cn, some rest, some wh⟩ ⟨some dur⟩
        = (false, .exceedsDaily r.max_daily_flight_time)
      ↔ dh + dur > r.max_daily_flight_time)
    ∧ (validate_assignment r ⟨some dh, some cn, some rest, some wh⟩ ⟨some dur⟩
        = (false, .exceedsWeekly r.weekly_flight_time_limit)
      ↔ wh + dur > r.weekly_flight_time_limit
          ∧ dh + dur ≤ r.max_daily_flight_time
          ∧ ¬(cn ≥ r.max_consecutive_night_duties
                ∧ rest < r.mandatory_night_rest_hours)) := by
  constructor <;>
  · simp only [validate_assignment, Option.getD_some]
    split_ifs <;> simp_all [not_lt] <;> intros <;> linarith

/-- C3: for every duty state passing the daily cap, the validator returns
non-compliant with the reason citing both the pilot's consecutive-night-duty
count and the required rest hours exactly when
`consecutive_night_duties ≥ max_consecutive_night_duties` and
`hours_since_last_rest < mandatory_night_rest_hours`; rest equal to the
mandatory hours passes the check, one hour less does not. -/
theorem C3_night_rest (r : Rules) (dh cn rest wh dur : ℚ)
    (hd : dh + dur ≤ r.max_daily_flight_time) :
    validate_assignment r ⟨some dh, some cn, some rest, some wh⟩ ⟨some dur⟩
        = (false, .nightRest cn r.mandatory_night_rest_hours)
      ↔ cn ≥ r.max_consecutive_night_duties
          ∧ rest < r.mandatory_night_rest_hours := by
  simp only [validate_assignment, Option.getD_some]
  split_ifs <;> simp_all [not_lt] <;> intros <;> linarith

/-- Witness for C3 at the spec's boundary values (`rules` 8/2/56/35):
2 consecutive night duties with 55 h since rest is rejected citing the count
and the 56 h requirement, while 56 h since rest is compliant. -/
theorem C3_night_rest_witness :
    validate_assignment specRules ⟨some 2, some 2, some 55, some 10⟩ ⟨some 2⟩
        = (false, .nightRest 2 56)
    ∧ validate_assignment specRules ⟨some 2, some 2, some 56, some 10⟩ ⟨some 2⟩
        = (true, .compliant) := by
  constructor
  · exact (C3_night_rest specRules 2 2 55 10 2
        (show (2:ℚ) + 2 ≤ 8 by norm_num)).mpr
      ⟨show (2:ℚ) ≥ 2 by norm_num, show (55:ℚ) < 56 by norm_num⟩
  · simp only [validate_assignment, specRules]
    norm_num

/-- C4: the checks run in the fixed order daily cap, night rest, weekly cap;
the first violation short-circuits (a daily violation is reported even when
the weekly cap is also violated, and a night-rest violation even when the
weekly cap is also violated), and when no rule fires the result is
`(true, "Compliant")`. -/
theorem C4_check_order (r : Rules) (dh cn rest wh dur : ℚ) :
    (dh + dur > r.max_daily_flight_time →
      validate_assignment r ⟨some dh, some cn, some rest, some wh⟩ ⟨some dur⟩
        = (false, .exceedsDaily r.max_daily_flight_time))
    ∧ (dh + dur ≤ r.max_daily_flight_time →
        cn ≥ r.max_consecutive_night_duties →
        rest < r.mandatory_night_rest_hours →
        validate_assignment r ⟨some dh, some cn, some rest, some wh⟩ ⟨some dur⟩
          = (false, .nightRest cn r.mandatory_night_rest_hours))
    ∧ (dh + dur ≤ r.max_daily_flight_time →
        ¬(cn ≥ r.max_consecutive_night_duties
            ∧ rest < r.mandatory_night_rest_hours) →
        wh + dur > r.weekly_flight_time_limit →
        validate_assignment r ⟨some dh, some cn, some rest, some wh⟩ ⟨some dur⟩
          = (false, .exceedsWeekly r.weekly_flight_time_limit))
    ∧ (dh + dur ≤ r.max_daily_flight_time →
        ¬(cn ≥ r.max_consecutive_night_duties
            ∧ rest < r.mandatory_night_rest_hours) →
        wh + dur ≤ r.weekly_flight_time_limit →
        validate_assignment r ⟨some dh, some cn, some rest, some wh⟩ ⟨some dur⟩
          = (true, .compliant)) := by
  refine ⟨?_, ?_, ?_, ?_⟩ <;>
  · intros
    simp only [validate_assignment, Option.getD_some]
    split_ifs <;> simp_all [not_lt] <;> intros <;> linarith

/-- Witness for C4: with rules 8/2/56/35, a flight violating both the daily
and the weekly cap is reported with the daily-cap reason, and an
unobjectionable flight is `(true, "Compliant")`. -/
theorem C4_check_order_witness :
    validate_assignment specRules ⟨some 8, some 0, some 60, some 35⟩ ⟨some 2⟩
        = (false, .exceedsDaily 8)
    ∧ validate_assignment specRules ⟨some 0, some 0, some 60, some 0⟩ ⟨some 2⟩
        = (true, .compliant) := by
  constructor
  · exact (C4_check_order specRules 8 0 60 35 2).1
      (show (8:ℚ) + 2 > 8 by norm_num)
  · exact (C4_check_order specRules 0 0 60 0 2).2.2.2
      (show (0:ℚ) + 2 ≤ 8 by norm_num)
      (show ¬((0:ℚ) ≥ 2 ∧ (60:ℚ) < 56) by norm_num)
      (show (0:ℚ) + 2 ≤ 35 by norm_num)

/-- A pilot dictionary with every field replaced by the value
`dict.get(key, 0)` would deliver. -/
def PilotDict.withDefaults (p : PilotDict) : PilotDict :=
  ⟨some (p.daily_flight_hours.getD 0), some (p.consecutive_night_duties.getD 0),
   some (p.hours_since_last_rest.getD 0), some (p.weekly_flight_hours.getD 0)⟩

/-- A flight dictionary with the `duration_hours` default applied. -/
def FlightDict.withDefaults (f : FlightDict) : FlightDict :=
  ⟨some (f.duration_hours.getD 0)⟩

/-- C5 counterexample: a validation call whose flight has the negative
duration −5 and whose pilot dictionary is missing every duty field does not
produce any caller-visible input error — it returns a result, and that
result is `(true, "Compliant")`. -/
theorem C5_counterexample :
    validate_assignment specRules ⟨none, none, none, none⟩ ⟨some (-5)⟩
      = (true, .compliant)
    ∧ ((-5 : ℚ) < 0) = True := by
  refine ⟨?_, by norm_num⟩
  simp only [validate_assignment, specRules, Option.getD_none, Option.getD_some]
  norm_num

/-- C5 amended: the validator performs no input validation at all — missing
duty and flight fields silently default to 0 (so the call behaves exactly as
if the absent fields were 0), a negative `duration_hours` flows into the cap
arithmetic unchanged, and such inputs can be reported `compliant=true`
rather than raising a caller-visible input error. -/
theorem C5_amended (r : Rules) (p : PilotDict) (f : FlightDict) :
    validate_assignment r p f
        = validate_assignment r p.withDefaults f.withDefaults
    ∧ validate_assignment specRules ⟨none, none, none, none⟩ ⟨some (-5)⟩
        = (true, .compliant) := by
  refine ⟨rfl, ?_⟩
  simp only [validate_assignment, specRules, Option.getD_none, Option.getD_some]
  norm_num

/-- The `dgca_fdtl` section of the C6 counterexample: the required key
`mandatory_night_rest_hours` is missing. -/
def partialRules : RulesDict := ⟨some 8, some 2, none, some 35⟩

/-- C6 counterexample: with `mandatory_night_rest_hours` missing from the
rule section, constructing the validator succeeds, and a validation call
runs to completion against the partially-configured rule set — it even
returns `(true, "Compliant")` because the evaluation never reaches the
missing key. -/
theorem C6_counterexample :
    FDTLValidator_init (some partialRules) = .ok partialRules
    ∧ validate_assignment_dict partialRules ⟨some 4, some 0, some 20, some 10⟩
        ⟨some 2⟩ = .ok (true, .compliant) := by
  refine ⟨rfl, ?_⟩
  simp only [validate_assignment_dict, partialRules, Option.getD_some]
  norm_num

/-- C6 amended: constructing the validator fails when the configuration (or
its `dgca_fdtl` section) is absent, but the four individual limit keys are
not checked at startup — any rules dictionary is accepted as-is.  A missing
limit is never treated as infinite: when a validation call reaches a missing
key it raises a `KeyError` (here, the first check always reads
`max_daily_flight_time`), but calls that short-circuit before the missing
key run to completion. -/
theorem C6_amended :
    FDTLValidator_init none = .error "Invalid config: missing 'dgca_fdtl' section"
    ∧ (∀ d : RulesDict, FDTLValidator_init (some d) = .ok d)
    ∧ (∀ (d : RulesDict) (p : PilotDict) (f : FlightDict),
        d.max_daily_flight_time = none →
        validate_assignment_dict d p f = .error .maxDailyFlightTime) := by
  refine ⟨rfl, fun d => rfl, ?_⟩
  intro d p f h
  simp only [validate_assignment_dict, h]

/-- Witness for C6 amended: a rules dictionary missing
`max_daily_flight_time` makes every validation call raise. -/
theorem C6_amended_witness :
    validate_assignment_dict ⟨none, some 2, some 56, some 35⟩ pilot0 ⟨some 2⟩
      = .error .maxDailyFlightTime :=
  C6_amended.2.2 ⟨none, some 2, some 56, some 35⟩ pilot0 ⟨some 2⟩ rfl

/-- C1 counterexample: two compliant swap candidates, the second cheaper
(cost 500 against 1000).  The selection step does not return the cheapest
compliant candidate: it returns both compliant candidates, with the costlier
one first (first-seen order), not the minimum-cost winner alone. -/
theorem C1_counterexample :
    reason_with_openai specRules pilot0
        [⟨"Swap aircraft A", 1000⟩, ⟨"Swap aircraft B", 500⟩]
      = .options [⟨"Swap aircraft A", 1000, true, .compliant⟩,
                  ⟨"Swap aircraft B", 500, true, .compliant⟩]
    ∧ reason_with_openai specRules pilot0
        [⟨"Swap aircraft A", 1000⟩, ⟨"Swap aircraft B", 500⟩]
      ≠ .options [⟨"Swap aircraft B", 500, true, .compliant⟩] := by
  have h1 : estimate_duration (strToLower "Swap aircraft A") = 1 := by decide
  have h2 : estimate_duration (strToLower "Swap aircraft B") = 1 := by decide
  have h : reason_with_openai specRules pilot0
      [⟨"Swap aircraft A", 1000⟩, ⟨"Swap aircraft B", 500⟩]
      = .options [⟨"Swap aircraft A", 1000, true, .compliant⟩,
                  ⟨"Swap aircraft B", 500, true, .compliant⟩] := by
    simp only [reason_with_openai, annotate, List.map, h1, h2]
    norm_num [validate_assignment, specRules, pilot0, List.filter]
  refine ⟨h, ?_⟩
  rw [h]
  simp

/-- C1 amended: when at least one candidate validates as compliant, the
selection step returns the compliant candidates — all of them, in their
original enumeration order — rather than a single minimum-cost winner; a
non-compliant candidate is never among them, however cheap. -/
theorem C1_amended (r : Rules) (p : PilotDict) (cands : List Candidate)
    (h : ∃ c ∈ cands, (annotate r p c).compliant = true) :
    reason_with_openai r p cands
        = .options ((cands.map (annotate r p)).filter (·.compliant))
    ∧ ((cands.map (annotate r p)).filter (·.compliant)).Sublist
        (cands.map (annotate r p))
    ∧ (∀ q ∈ (cands.map (annotate r p)).filter (·.compliant),
        q.compliant = true)
    ∧ (∀ q ∈ cands.map (annotate r p), q.compliant = true →
        q ∈ (cands.map (annotate r p)).filter (·.compliant)) := by
  obtain ⟨c, hc, hcomp⟩ := h
  have hmem : annotate r p c ∈ (cands.map (annotate r p)).filter (·.compliant) :=
    List.mem_filter.mpr ⟨List.mem_map_of_mem _ hc, hcomp⟩
  have hne : ((cands.map (annotate r p)).filter (·.compliant)).isEmpty = false := by
    rw [List.isEmpty_eq_false]
    intro hnil
    rw [hnil] at hmem
    exact List.not_mem_nil _ hmem
  refine ⟨?_, List.filter_sublist _, ?_, ?_⟩
  · simp only [reason_with_openai, hne, Bool.false_eq_true, if_false]
  · intro q hq
    exact (List.mem_filter.mp hq).2
  · intro q hq hcq
    exact List.mem_filter.mpr ⟨hq, hcq⟩

/-- Witness for C1 amended: a single compliant swap candidate is returned,
annotated compliant. -/
theorem C1_amended_witness :
    reason_with_openai specRules pilot0 [⟨"Swap aircraft B", 500⟩]
      = .options [⟨"Swap aircraft B", 500, true, .compliant⟩] := by
  have h1 : estimate_duration (strToLower "Swap aircraft B") = 1 := by decide
  have hcomp : (annotate specRules pilot0 ⟨"Swap aircraft B", 500⟩).compliant
      = true := by
    simp only [annotate, h1]
    norm_num [validate_assignment, specRules, pilot0]
  have h := (C1_amended specRules pilot0 [⟨"Swap aircraft B", 500⟩]
      ⟨⟨"Swap aircraft B", 500⟩, List.mem_singleton_self _, hcomp⟩).1
  rw [h]
  simp only [annotate, List.map, h1]
  norm_num [validate_assignment, specRules, pilot0, List.filter]

/-- A pilot at the daily cap: any positive proposed duration violates the
daily rule. -/
def pilotTired : PilotDict := ⟨some 8, some 0, some 60, some 0⟩

/-- C7 counterexample: a candidate set whose only candidate is
non-compliant.  The selection step does not return a distinct "no compliant
candidate" outcome: it delegates to the local-LLM path — the same path taken
on a processing failure — and the hardcoded proposals returned when that
path fails are all marked `compliant=True` without validation, even though
validating the first of them ("Delay flight by 2 hours") against this very
pilot yields non-compliant. -/
theorem C7_counterexample :
    reason_with_openai specRules pilotTired [⟨"Swap in reserve pilot", 100⟩]
      = .fallbackLocal
    ∧ (annotate specRules pilotTired ⟨"Swap in reserve pilot", 100⟩).compliant
      = false
    ∧ fallback_proposals.all (·.compliant) = true
    ∧ (annotate specRules pilotTired ⟨"Delay flight by 2 hours", 500⟩).compliant
      = false := by
  have h1 : estimate_duration (strToLower "Swap in reserve pilot") = 1 := by
    decide
  have h2 : parseFloat? "2" = some (1 * ((2 : ℕ) : ℚ)) := rfl
  have h3 : estimate_duration (strToLower "Delay flight by 2 hours") = 2 := by
    have hs : strHasSub (strToLower "Delay flight by 2 hours") "delay" = true := by
      decide
    have hf : findHourPred (pyWords (strToLower "Delay flight by 2 hours"))
        = some "2" := by decide
    simp only [estimate_duration, hs, hf, h2, if_true, Option.getD_some]
    norm_num
  have hswap : (annotate specRules pilotTired ⟨"Swap in reserve pilot", 100⟩).compliant
      = false := by
    simp only [annotate, h1]
    norm_num [validate_assignment, specRules, pilotTired]
  refine ⟨?_, hswap, by decide, ?_⟩
  · simp only [reason_with_openai, List.map, List.filter, hswap]
    rfl
  · simp only [annotate, h3]
    norm_num [validate_assignment, specRules, pilotTired]

/-- C7 amended: when every candidate is non-compliant the selection step
does not report a distinct "no compliant candidate" outcome — it delegates
to the randomized local-LLM path, which is also where a processing failure
of the OpenAI call lands; and the hardcoded proposals returned when that
path fails too are all marked `compliant=True` without any validation. -/
theorem C7_amended (r : Rules) (p : PilotDict) (cands : List Candidate)
    (h : ∀ c ∈ cands, (annotate r p c).compliant = false) :
    reason_with_openai r p cands = .fallbackLocal
    ∧ fallback_proposals.all (·.compliant) = true := by
  refine ⟨?_, by decide⟩
  have hnil : (cands.map (annotate r p)).filter (·.compliant) = [] := by
    rw [List.filter_eq_nil_iff]
    intro q hq
    obtain ⟨c, hc, rfl⟩ := List.mem_map.mp hq
    simp [h c hc]
  simp only [reason_with_openai, hnil, List.isEmpty_nil, if_true]

/-- Witness for C7 amended: the tired pilot's one-candidate set goes to the
local-LLM fallback path. -/
theorem C7_amended_witness :
    reason_with_openai specRules pilotTired [⟨"Swap in reserve pilot", 100⟩]
      = .fallbackLocal := by
  have h1 : estimate_duration (strToLower "Swap in reserve pilot") = 1 := by
    decide
  have hswap : ∀ c ∈ [(⟨"Swap in reserve pilot", 100⟩ : Candidate)],
      (annotate specRules pilotTired c).compliant = false := by
    intro c hc
    rw [List.mem_singleton] at hc
    subst hc
    simp only [annotate, h1]
    norm_num [validate_assignment, specRules, pilotTired]
  exact (C7_amended specRules pilotTired _ hswap).1

/-- C8: selection is monotone under non-compliant insertions — inserting a
candidate that validates as non-compliant (of any cost) at any position of a
candidate list that already contains a compliant candidate leaves the
selection outcome unchanged. -/
theorem C8_monotone (r : Rules) (p : PilotDict) (l1 l2 : List Candidate)
    (c : Candidate) (hc : (annotate r p c).compliant = false)
    (h : ∃ x ∈ l1 ++ l2, (annotate r p x).compliant = true) :
    reason_with_openai r p (l1 ++ c :: l2) = reason_with_openai r p (l1 ++ l2) := by
  have key : ((l1 ++ c :: l2).map (annotate r p)).filter (·.compliant)
      = ((l1 ++ l2).map (annotate r p)).filter (·.compliant) := by
    simp [List.map_append, List.filter_append, List.filter_cons, hc]
  simp only [reason_with_openai, key]

/-- Witness for C8: inserting a cheap non-compliant 99-hour delay after a
compliant swap leaves the selection outcome unchanged. -/
theorem C8_monotone_witness :
    reason_with_openai specRules pilot0
        [⟨"Swap aircraft B", 500⟩, ⟨"Delay flight by 99 hours", 1⟩]
      = reason_with_openai specRules pilot0 [⟨"Swap aircraft B", 500⟩] := by
  have h1 : estimate_duration (strToLower "Swap aircraft B") = 1 := by decide
  have h2 : parseFloat? "99" = some (1 * ((99 : ℕ) : ℚ)) := rfl
  have h3 : estimate_duration (strToLower "Delay flight by 99 hours") = 99 := by
    have hs : strHasSub (strToLower "Delay flight by 99 hours") "delay" = true := by
      decide
    have hf : findHourPred (pyWords (strToLower "Delay flight by 99 hours"))
        = some "99" := by decide
    simp only [estimate_duration, hs, hf, h2, if_true, Option.getD_some]
    norm_num
  have hc : (annotate specRules pilot0 ⟨"Delay flight by 99 hours", 1⟩).compliant
      = false := by
    simp only [annotate, h3]
    norm_num [validate_assignment, specRules, pilot0]
  have hx : (annotate specRules pilot0 ⟨"Swap aircraft B", 500⟩).compliant
      = true := by
    simp only [annotate, h1]
    norm_num [validate_assignment, specRules, pilot0]
  exact C8_monotone specRules pilot0 [⟨"Swap aircraft B", 500⟩] []
    ⟨"Delay flight by 99 hours", 1⟩ hc
    ⟨⟨"Swap aircraft B", 500⟩, by simp, hx⟩

/-- C9 counterexample: `_estimate_cost` is not a function of its visible
input — two different states of the hidden global RNG give two different
costs for the identical action string, so repeated calls with identical
inputs need not produce identical values. -/
theorem C9_counterexample :
    estimate_cost "Delay departures by 2 hours" 0 = 300
    ∧ estimate_cost "Delay departures by 2 hours" 1 = 301
    ∧ ((300 : ℕ) = 301) = False :=
  ⟨by decide, by decide, by norm_num⟩

/-- C9 amended: downstream of a fixed candidate list the selection step is
deterministic — the selection relation is functional and the implementation
realizes it — but the local-LLM path's cost estimation (and proposal
generation) draws on the hidden global RNG, so `reason_and_act` as a whole
is not a function of its visible inputs. -/
theorem C9_amended (r : Rules) (p : PilotDict) (cands : List Candidate) :
    (∀ o1 o2 : SelectResult,
      SelectStep r p cands o1 → SelectStep r p cands o2 → o1 = o2)
    ∧ SelectStep r p cands (reason_with_openai r p cands) := by
  constructor
  · rintro o1 o2 h1 h2
    cases h1 with
    | options l1 hl1 hne1 =>
      cases h2 with
      | options l2 hl2 hne2 => rw [hl1, hl2]
      | fallback h2f => exact absurd (hl1.trans h2f) hne1
    | fallback h1f =>
      cases h2 with
      | options l2 hl2 hne2 => exact absurd (hl2.trans h1f) hne2
      | fallback h2f => rfl
  · by_cases he : (cands.map (annotate r p)).filter (·.compliant) = []
    · have hr : reason_with_openai r p cands = .fallbackLocal := by
        simp only [reason_with_openai, he, List.isEmpty_nil, if_true]
      rw [hr]
      exact SelectStep.fallback he
    · have hne : ((cands.map (annotate r p)).filter (·.compliant)).isEmpty
          = false := by
        rw [List.isEmpty_eq_false]
        exact he
      have hr : reason_with_openai r p cands
          = .options ((cands.map (annotate r p)).filter (·.compliant)) := by
        simp only [reason_with_openai, hne, Bool.false_eq_true, if_false]
      rw [hr]
      exact SelectStep.options _ rfl he

/-- Witness for C9 amended: on the empty candidate list the unique outcome
the selection relation admits is the local fallback, and the implementation
produces it. -/
theorem C9_amended_witness :
    reason_with_openai specRules pilot0 ([] : List Candidate) = .fallbackLocal :=
  (C9_amended specRules pilot0 []).1 _ _ (C9_amended specRules pilot0 []).2
    (SelectStep.fallback rfl)

/-- C10 counterexample: an action string containing both `"delay"` and
`"cancel"` is routed through the delay branch first (the code checks
`"delay"` before `"cancel"`), so its validated duration is the 2.0 default,
not the 0.0 the claim's cancel-first ordering requires. -/
theorem C10_counterexample :
    strHasSub "delay then cancel flight" "cancel" = true
    ∧ estimate_duration "delay then cancel flight" = 2
    ∧ ((2 : ℚ) = 0) = False :=
  ⟨by decide, by decide, by norm_num⟩

/-- C10 amended: the duration validated against the duty caps is inferred
from the lowercased free-form action text, with the branches tried in the
order delay, cancel, swap: if the text contains `"delay"`, the duration is
the number parsed from the word preceding the first later word containing
`"hour"` (2.0 when no such word exists or the parse fails); otherwise
`"cancel"` gives 0.0, then `"swap"` gives 1.0, and anything else the 2.0
default; and the compliance verdict attached to a candidate is exactly the
validator's verdict on that inferred duration. -/
theorem C10_amended (a w : String) (q : ℚ) (r : Rules) (p : PilotDict)
    (c : Candidate) :
    (strHasSub a "delay" = true → findHourPred (pyWords a) = none →
      estimate_duration a = 2)
    ∧ (strHasSub a "delay" = true → findHourPred (pyWords a) = some w →
        parseFloat? w = some q → estimate_duration a = q)
    ∧ (strHasSub a "delay" = true → findHourPred (pyWords a) = some w →
        parseFloat? w = none → estimate_duration a = 2)
    ∧ (strHasSub a "delay" = false → strHasSub a "cancel" = true →
        estimate_duration a = 0)
    ∧ (strHasSub a "delay" = false → strHasSub a "cancel" = false →
        strHasSub a "swap" = true → estimate_duration a = 1)
    ∧ (strHasSub a "delay" = false → strHasSub a "cancel" = false →
        strHasSub a "swap" = false → estimate_duration a = 2)
    ∧ (annotate r p c).compliant
      = (validate_assignment r p
          ⟨some (estimate_duration (strToLower c.action))⟩).1 := by
  refine ⟨?_, ?_, ?_, ?_, ?_, ?_, rfl⟩ <;>
  · intros
    simp [estimate_duration, *]

/-- Witness for C10 amended: `"delay flight by 3 hours"` parses to 3.0 via
the delay branch, and `"cancel flight 6e-101"` gives 0.0 via the cancel
branch. -/
theorem C10_amended_witness :
    estimate_duration "delay flight by 3 hours" = 3
    ∧ estimate_duration "cancel flight 6e-101" = 0 := by
  constructor
  · have h2 : parseFloat? "3" = some (1 * ((3 : ℕ) : ℚ)) := rfl
    have h3 : parseFloat? "3" = some 3 := by
      rw [h2]
      norm_num
    exact (C10_amended "delay flight by 3 hours" "3" 3 specRules pilot0
      ⟨"", 0⟩).2.1 (by decide) (by decide) h3
  · exact (C10_amended "cancel flight 6e-101" "" 0 specRules pilot0
      ⟨"", 0⟩).2.2.2.1 (by decide) (by decide)

/-- Witness for C2 at the spec's boundary values (rules 8/2/56/35): daily
6 + 2.1 exceeds the cap and is rejected citing 8; weekly 34 + 2 exceeds the
limit and is rejected citing 35; daily 6 + 2 exactly reaches the cap and is
compliant. -/
theorem C2_cap_checks_witness :
    validate_assignment specRules ⟨some 6, some 0, some 60, some 10⟩
        ⟨some (21/10)⟩ = (false, .exceedsDaily 8)
    ∧ validate_assignment specRules ⟨some 4, some 0, some 60, some 34⟩
        ⟨some 2⟩ = (false, .exceedsWeekly 35)
    ∧ validate_assignment specRules ⟨some 6, some 0, some 60, some 10⟩
        ⟨some 2⟩ = (true, .compliant) := by
  refine ⟨?_, ?_, ?_⟩
  · exact (C2_cap_checks specRules 6 0 60 10 (21/10)).1.mpr
      (show (6 : ℚ) + 21/10 > 8 by norm_num)
  · exact (C2_cap_checks specRules 4 0 60 34 2).2.mpr
      ⟨show (34 : ℚ) + 2 > 35 by norm_num,
       show (4 : ℚ) + 2 ≤ 8 by norm_num,
       show ¬((0 : ℚ) ≥ 2 ∧ (60 : ℚ) < 56) by norm_num⟩
  · simp only [validate_assignment, specRules, Option.getD_some]
    norm_num
